import Mathlib

/-!
# tonga: Go client of the tonga message queue

A shallow embedding of the two client files of the repository,

* `src/tonga.go` (query texts with the positional placeholders `$1`, `$2`, ...), namespace
  `Tonga`;
* `src/tonga-go-pgx/tonga.go` (query texts with `?` placeholders), namespace `TongaGoPgx`.

Both files declare the same types (`Conn`, `Client`, `ChannelOpts`, `SendOpts`, `Message`),
character for character; they are embedded once, in namespace `Tonga`, and used by both.

The database connection, `pgx.Row.Scan`, `pgx.CollectRows` and `json.Marshal` are collaborators
outside the repository.  They are parameters of the embedding: every theorem holds for every
behaviour they may have.  An operation is a function on an explicit `State` that holds the
`Client` behind the pointer receiver, the connection's own state and the trace of calls made on
the connection.
-/

namespace Tonga

/-! ## Values that cross the interface -/

/-- A non-nil Go `error`.  The Go type `error` is `Option GoError`, `none` being `nil`. -/
structure GoError where
  msg : String
  deriving DecidableEq, Repr

/-- A `context.Context`; the client only hands it on. -/
structure Context where
  id : Nat
  deriving DecidableEq, Repr

/-- A `time.Time`: seconds since January 1 of year 1, 00:00:00 UTC, the nanoseconds within that
second, and the name of the location. -/
structure Time where
  sec : Int
  nsec : Int
  loc : String
  deriving DecidableEq, Repr

/-- `time.Time.IsZero`: the instant is January 1, year 1, 00:00:00 UTC, whatever the location. -/
def Time.IsZero (t : Time) : Bool :=
  t.sec == 0 && t.nsec == 0

/-- A `time.Duration`: a count of nanoseconds. -/
abbrev Duration := Int

/-- A `[]byte`. -/
abbrev Bytes := List UInt8

/-- `pgconn.CommandTag`; the client discards it. -/
abbrev CommandTag := String

/-- One value of the variadic `...interface{}` argument list of a connection call, tagged with
the Go type of the expression the client passes. -/
inductive Arg where
  /-- a Go `string` -/
  | string (s : String)
  /-- a Go `bool` -/
  | bool (b : Bool)
  /-- a Go `int` -/
  | int (n : Int)
  /-- a Go `int64` -/
  | int64 (n : Int)
  /-- the `float64` that `d.Seconds()` returns for the duration `d` -/
  | float64Seconds (d : Duration)
  /-- a Go `[]byte` -/
  | bytes (b : Bytes)
  /-- a Go `time.Time` -/
  | time (t : Time)
  deriving DecidableEq, Repr

/-- `type ChannelOpts struct`. -/
structure ChannelOpts where
  DeleteAt : Time
  Unlogged : Bool
  deriving DecidableEq, Repr

/-- `type SendOpts struct`. -/
structure SendOpts where
  DeliverAt : Time
  deriving DecidableEq, Repr

/-- `type Message struct`. -/
structure Message where
  ID : Int
  Topic : String
  Body : Bytes
  CreatedAt : Time
  DeliverAt : Time
  deriving DecidableEq, Repr

/-! ## The connection -/

/-- The three methods of `type Conn interface`. -/
inductive Method where
  | Exec
  | Query
  | QueryRow
  deriving DecidableEq, Repr

/-- One call made on the connection: the method, and the context, the query text and the bound
arguments it was given. -/
structure Call where
  method : Method
  ctx : Context
  sql : String
  args : List Arg
  deriving DecidableEq, Repr

/-- What `Scan(&existed)` does with its one `*bool` destination: the value it stores there, if it
stores one, and the error it returns. -/
structure ScanResult where
  wrote : Option Bool
  err : Option GoError
  deriving DecidableEq, Repr

/-- A `pgx.Row`, given by its `Scan` into one `*bool`; scanning may change the connection's
state `σ`. -/
structure Row (σ : Type) where
  Scan : σ → ScanResult × σ

/-- A `pgx.Rows`, given by what `pgx.CollectRows(rows, pgx.RowToAddrOfStructByPos[Message])`
returns for it (`none` is the nil slice); collecting may change the connection's state `σ`. -/
structure Rows (σ : Type) where
  Collect : σ → (Option (List Message) × Option GoError) × σ

/-- `type Conn interface`: each method is a function of the connection's state `σ`. -/
structure Conn (σ : Type) where
  Exec : Context → String → List Arg → σ → (CommandTag × Option GoError) × σ
  Query : Context → String → List Arg → σ → (Rows σ × Option GoError) × σ
  QueryRow : Context → String → List Arg → σ → Row σ × σ

/-- `type Client struct`. -/
structure Client (σ : Type) where
  conn : Conn σ

/-- `func New(conn Conn) *Client`. -/
def New {σ : Type} (conn : Conn σ) : Client σ :=
  { conn := conn }

/-- The state an operation runs in: the `Client` its receiver points to, the calls made on the
connection so far (oldest first) and the connection's own state. -/
structure State (σ : Type) where
  c : Client σ
  trace : List Call
  db : σ

/-- The call `c.conn.Exec(ctx, sql, args...)`, recorded on the trace. -/
def connExec {σ : Type} (ctx : Context) (sql : String) (args : List Arg) (s : State σ) :
    (CommandTag × Option GoError) × State σ :=
  let r := s.c.conn.Exec ctx sql args s.db
  (r.1, { s with trace := s.trace ++ [⟨Method.Exec, ctx, sql, args⟩], db := r.2 })

/-- The call `c.conn.Query(ctx, sql, args...)`, recorded on the trace. -/
def connQuery {σ : Type} (ctx : Context) (sql : String) (args : List Arg) (s : State σ) :
    (Rows σ × Option GoError) × State σ :=
  let r := s.c.conn.Query ctx sql args s.db
  (r.1, { s with trace := s.trace ++ [⟨Method.Query, ctx, sql, args⟩], db := r.2 })

/-- The call `c.conn.QueryRow(ctx, sql, args...)`, recorded on the trace. -/
def connQueryRow {σ : Type} (ctx : Context) (sql : String) (args : List Arg) (s : State σ) :
    Row σ × State σ :=
  let r := s.c.conn.QueryRow ctx sql args s.db
  (r.1, { s with trace := s.trace ++ [⟨Method.QueryRow, ctx, sql, args⟩], db := r.2 })

/-- The call `row.Scan(&existed)`: the variable keeps its value `existed` unless the scan stores
one; returns the variable's value afterwards and the scan's error. -/
def rowScan {σ : Type} (row : Row σ) (existed : Bool) (s : State σ) :
    (Bool × Option GoError) × State σ :=
  let r := row.Scan s.db
  ((r.1.wrote.getD existed, r.1.err), { s with db := r.2 })

/-- The call `pgx.CollectRows(rows, pgx.RowToAddrOfStructByPos[Message])`. -/
def CollectRows {σ : Type} (rows : Rows σ) (s : State σ) :
    (Option (List Message) × Option GoError) × State σ :=
  let r := rows.Collect s.db
  (r.1, { s with db := r.2 })

/-! ## `src/tonga.go` -/

/-- `func (c *Client) CreateChannel` of `src/tonga.go`. -/
def CreateChannel {σ : Type} (ctx : Context) (queueName topic : String) (opts : ChannelOpts)
    (s : State σ) : Option GoError × State σ :=
  if opts.DeleteAt.IsZero then
    let q := "select * from tonga_create_channel(queue_name => $1, topic => $2, unlogged => $3);"
    let r := connExec ctx q [Arg.string queueName, Arg.string topic, Arg.bool opts.Unlogged] s
    (r.1.2, r.2)
  else
    let q := "select * from tonga_create_channel(queue_name => $1, topic => $2, delete_at => $3, unlogged => $4);"
    let r := connExec ctx q
      [Arg.string queueName, Arg.string topic, Arg.time opts.DeleteAt, Arg.bool opts.Unlogged] s
    (r.1.2, r.2)

/-- `func (c *Client) DeleteChannel` of `src/tonga.go`. -/
def DeleteChannel {σ : Type} (ctx : Context) (queueName : String) (s : State σ) :
    (Bool × Option GoError) × State σ :=
  let q := "select * from tonga_delete_channel(queue_name => $1);"
  let existed := false
  let r := connQueryRow ctx q [Arg.string queueName] s
  rowScan r.1 existed r.2

/-- `func (c *Client) Send` of `src/tonga.go`; `Marshal` is `json.Marshal`. -/
def Send {σ β : Type} (Marshal : β → Bytes × Option GoError) (ctx : Context) (topic : String)
    (body : β) (opts : SendOpts) (s : State σ) : Option GoError × State σ :=
  let m := Marshal body
  match m.2 with
  | some err => (some err, s)
  | none =>
    if opts.DeliverAt.IsZero then
      let q := "select * from tonga_send(topic => $1, body => $2);"
      let r := connExec ctx q [Arg.string topic, Arg.bytes m.1] s
      (r.1.2, r.2)
    else
      let q := "select * from tonga_send(topic => $1, body => $2, deliver_at => $3);"
      let r := connExec ctx q [Arg.string topic, Arg.bytes m.1, Arg.time opts.DeliverAt] s
      (r.1.2, r.2)

/-- `func (c *Client) Read` of `src/tonga.go`. -/
def Read {σ : Type} (ctx : Context) (queueName : String) (quantity : Int) (hideFor : Duration)
    (s : State σ) : (Option (List Message) × Option GoError) × State σ :=
  let q := "select * from tonga_read(queue_name => $1, quantity => $2, hide_for => $3);"
  let r := connQuery ctx q
    [Arg.string queueName, Arg.int quantity, Arg.float64Seconds hideFor] s
  match r.1.2 with
  | some err => ((none, some err), r.2)
  | none => CollectRows r.1.1 r.2

/-- `func (c *Client) Delete` of `src/tonga.go`. -/
def Delete {σ : Type} (ctx : Context) (queueName : String) (id : Int) (s : State σ) :
    (Bool × Option GoError) × State σ :=
  let q := "select * from tonga_delete(queue_name => $1, id => $2);"
  let existed := false
  let r := connQueryRow ctx q [Arg.string queueName, Arg.int64 id] s
  rowScan r.1 existed r.2

/-- `func (c *Client) GC` of `src/tonga.go`. -/
def GC {σ : Type} (ctx : Context) (s : State σ) : Option GoError × State σ :=
  let q := "select * from tonga_gc();"
  let r := connExec ctx q [] s
  (r.1.2, r.2)

end Tonga

/-! ## `src/tonga-go-pgx/tonga.go` -/

namespace TongaGoPgx

open Tonga

/-- `func (c *Client) CreateChannel` of `src/tonga-go-pgx/tonga.go`. -/
def CreateChannel {σ : Type} (ctx : Context) (queueName topic : String) (opts : ChannelOpts)
    (s : State σ) : Option GoError × State σ :=
  if opts.DeleteAt.IsZero then
    let q := "select * from tonga_create_channel(queue_name => ?, topic => ?, unlogged => ?);"
    let r := connExec ctx q [Arg.string queueName, Arg.string topic, Arg.bool opts.Unlogged] s
    (r.1.2, r.2)
  else
    let q := "select * from tonga_create_channel(queue_name => ?, topic => ?, delete_at => ?, unlogged => ?);"
    let r := connExec ctx q
      [Arg.string queueName, Arg.string topic, Arg.time opts.DeleteAt, Arg.bool opts.Unlogged] s
    (r.1.2, r.2)

/-- `func (c *Client) DeleteChannel` of `src/tonga-go-pgx/tonga.go`. -/
def DeleteChannel {σ : Type} (ctx : Context) (queueName : String) (s : State σ) :
    (Bool × Option GoError) × State σ :=
  let q := "select * from tonga_delete_channel(queue_name => ?);"
  let existed := false
  let r := connQueryRow ctx q [Arg.string queueName] s
  rowScan r.1 existed r.2

/-- `func (c *Client) Send` of `src/tonga-go-pgx/tonga.go`; `Marshal` is `json.Marshal`. -/
def Send {σ β : Type} (Marshal : β → Bytes × Option GoError) (ctx : Context) (topic : String)
    (body : β) (opts : SendOpts) (s : State σ) : Option GoError × State σ :=
  let m := Marshal body
  match m.2 with
  | some err => (some err, s)
  | none =>
    if opts.DeliverAt.IsZero then
      let q := "select * from tonga_send(topic => ?, body => ?);"
      let r := connExec ctx q [Arg.string topic, Arg.bytes m.1] s
      (r.1.2, r.2)
    else
      let q := "select * from tonga_send(topic => ?, body => ?, deliver_at => ?);"
      let r := connExec ctx q [Arg.string topic, Arg.bytes m.1, Arg.time opts.DeliverAt] s
      (r.1.2, r.2)

/-- `func (c *Client) Read` of `src/tonga-go-pgx/tonga.go`: the call passes `quantity` and
`hideFor.Seconds()` only. -/
def Read {σ : Type} (ctx : Context) (queueName : String) (quantity : Int) (hideFor : Duration)
    (s : State σ) : (Option (List Message) × Option GoError) × State σ :=
  let _ := queueName
  let q := "select * from tonga_read(queue_name => ?, quantity => ?, hide_for => ?);"
  let r := connQuery ctx q [Arg.int quantity, Arg.float64Seconds hideFor] s
  match r.1.2 with
  | some err => ((none, some err), r.2)
  | none => CollectRows r.1.1 r.2

/-- `func (c *Client) Delete` of `src/tonga-go-pgx/tonga.go`: the call passes `queueName`
only. -/
def Delete {σ : Type} (ctx : Context) (queueName : String) (id : Int) (s : State σ) :
    (Bool × Option GoError) × State σ :=
  let _ := id
  let q := "select * from tonga_delete(queue_name => ?, id => ?);"
  let existed := false
  let r := connQueryRow ctx q [Arg.string queueName] s
  rowScan r.1 existed r.2

/-- `func (c *Client) GC` of `src/tonga-go-pgx/tonga.go`. -/
def GC {σ : Type} (ctx : Context) (s : State σ) : Option GoError × State σ :=
  let q := "select * from tonga_gc();"
  let r := connExec ctx q [] s
  (r.1.2, r.2)

end TongaGoPgx

/-! ## One invocation of the client -/

namespace Tonga

/-- An invocation of one of the six exported methods of `Client`, with the arguments it is given;
`β` is the type of the body handed to `Send`. -/
inductive Request (β : Type) where
  | CreateChannel (ctx : Context) (queueName topic : String) (opts : ChannelOpts)
  | DeleteChannel (ctx : Context) (queueName : String)
  | Send (ctx : Context) (topic : String) (body : β) (opts : SendOpts)
  | Read (ctx : Context) (queueName : String) (quantity : Int) (hideFor : Duration)
  | Delete (ctx : Context) (queueName : String) (id : Int)
  | GC (ctx : Context)

/-- What an invocation returns to its caller. -/
inductive Response where
  /-- the `error` of `CreateChannel`, `Send` and `GC` -/
  | error (err : Option GoError)
  /-- the `(bool, error)` of `DeleteChannel` and `Delete` -/
  | existed (b : Bool) (err : Option GoError)
  /-- the `([]*Message, error)` of `Read` -/
  | messages (ms : Option (List Message)) (err : Option GoError)
  deriving DecidableEq, Repr

/-- The method a request invokes, and whether the optional time it carries (`opts.DeleteAt`,
`opts.DeliverAt`) is the zero time; `false` for the methods that carry none. -/
inductive Shape where
  | CreateChannel (zero : Bool)
  | DeleteChannel
  | Send (zero : Bool)
  | Read
  | Delete
  | GC
  deriving DecidableEq, Repr

/-- The shape of a request: everything about it but `ctx`, `queueName`, `topic`, `body`, `id`,
`quantity`, `hideFor`, `Unlogged` and the value of a non-zero time. -/
def Request.shape {β : Type} : Request β → Shape
  | Request.CreateChannel _ _ _ opts => Shape.CreateChannel opts.DeleteAt.IsZero
  | Request.DeleteChannel _ _ => Shape.DeleteChannel
  | Request.Send _ _ _ opts => Shape.Send opts.DeliverAt.IsZero
  | Request.Read _ _ _ _ => Shape.Read
  | Request.Delete _ _ _ => Shape.Delete
  | Request.GC _ => Shape.GC

/-- Whether a request is a `Send` whose body `json.Marshal` rejects. -/
def Request.marshalFails {β : Type} (Marshal : β → Bytes × Option GoError) : Request β → Bool
  | Request.Send _ _ body _ => (Marshal body).2.isSome
  | _ => false

/-- Runs a request against the client of `src/tonga.go`. -/
def perform {σ β : Type} (Marshal : β → Bytes × Option GoError) (r : Request β) (s : State σ) :
    Response × State σ :=
  match r with
  | Request.CreateChannel ctx queueName topic opts =>
    let x := CreateChannel ctx queueName topic opts s
    (Response.error x.1, x.2)
  | Request.DeleteChannel ctx queueName =>
    let x := DeleteChannel ctx queueName s
    (Response.existed x.1.1 x.1.2, x.2)
  | Request.Send ctx topic body opts =>
    let x := Send Marshal ctx topic body opts s
    (Response.error x.1, x.2)
  | Request.Read ctx queueName quantity hideFor =>
    let x := Read ctx queueName quantity hideFor s
    (Response.messages x.1.1 x.1.2, x.2)
  | Request.Delete ctx queueName id =>
    let x := Delete ctx queueName id s
    (Response.existed x.1.1 x.1.2, x.2)
  | Request.GC ctx =>
    let x := GC ctx s
    (Response.error x.1, x.2)

end Tonga

namespace TongaGoPgx

open Tonga

/-- Runs a request against the client of `src/tonga-go-pgx/tonga.go`. -/
def perform {σ β : Type} (Marshal : β → Bytes × Option GoError) (r : Request β) (s : State σ) :
    Response × State σ :=
  match r with
  | Request.CreateChannel ctx queueName topic opts =>
    let x := CreateChannel ctx queueName topic opts s
    (Response.error x.1, x.2)
  | Request.DeleteChannel ctx queueName =>
    let x := DeleteChannel ctx queueName s
    (Response.existed x.1.1 x.1.2, x.2)
  | Request.Send ctx topic body opts =>
    let x := Send Marshal ctx topic body opts s
    (Response.error x.1, x.2)
  | Request.Read ctx queueName quantity hideFor =>
    let x := Read ctx queueName quantity hideFor s
    (Response.messages x.1.1 x.1.2, x.2)
  | Request.Delete ctx queueName id =>
    let x := Delete ctx queueName id s
    (Response.existed x.1.1 x.1.2, x.2)
  | Request.GC ctx =>
    let x := GC ctx s
    (Response.error x.1, x.2)

end TongaGoPgx

/-! ## Reading a query text

What a query text says is needed to state which argument a named parameter receives.  A text of
the client has the form `select * from f(name => placeholder, ...);`.  With positional
placeholders `$n` stands for the `n`-th bound argument (counted from 1); with `?` placeholders
the `k`-th `?` of the text stands for the `k`-th bound argument. -/

namespace QueryText

open Tonga

/-- The characters that end a word of a query text. -/
def isSeparator (c : Char) : Bool :=
  c == ' ' || c == ',' || c == '(' || c == ')' || c == ';'

/-- The words of a text, `acc` being the characters of the word under way, last first. -/
def wordsAux : List Char → List Char → List String
  | [], acc => if acc.isEmpty then [] else [String.mk acc.reverse]
  | c :: cs, acc =>
    if isSeparator c then
      if acc.isEmpty then wordsAux cs [] else String.mk acc.reverse :: wordsAux cs []
    else wordsAux cs (c :: acc)

/-- The words of a query text: the maximal runs of characters that are not separators. -/
def words (q : String) : List String :=
  wordsAux q.data []

/-- The pairs `(name, placeholder)` of the `name => placeholder` items in a list of words. -/
def bindingsOf : List String → List (String × String)
  | [] => []
  | [_] => []
  | [_, _] => []
  | n :: a :: p :: rest =>
    if a = "=>" then (n, p) :: bindingsOf rest else bindingsOf (a :: p :: rest)

/-- The named parameters of a query text, each with its placeholder, in the order written. -/
def namedParams (q : String) : List (String × String) :=
  bindingsOf (words q)

/-- The SQL function a query text calls: the word after `from`. -/
def calledFunction (q : String) : Option String :=
  match words q with
  | _ :: _ :: _ :: f :: _ => some f
  | _ => none

/-- The number a list of decimal digits writes, `none` if a character is no digit. -/
def digitsValue : List Char → Nat → Option Nat
  | [], n => some n
  | d :: ds, n => if d.isDigit then digitsValue ds (10 * n + (d.toNat - '0'.toNat)) else none

/-- The index, from 0, of the bound argument that placeholder `p` stands for when `k`
placeholders come before it in the text. -/
def placeholderIndex (k : Nat) (p : String) : Option Nat :=
  match p.data with
  | ['?'] => some k
  | '$' :: d :: ds =>
    match digitsValue (d :: ds) 0 with
    | some (n + 1) => some n
    | _ => none
  | _ => none

/-- For the named parameters `ps`, the first of which has `k` placeholders before it: each name
with the bound argument its placeholder stands for, `none` when the argument list has none
there. -/
def bindAux (args : List Arg) : Nat → List (String × String) → List (String × Option Arg)
  | _, [] => []
  | k, (name, p) :: ps =>
    (name, (placeholderIndex k p).bind (fun i => args.get? i)) :: bindAux args (k + 1) ps

/-- Each named parameter of query text `q` with the argument of `args` bound to it. -/
def paramArgs (q : String) (args : List Arg) : List (String × Option Arg) :=
  bindAux args 0 (namedParams q)

/-- Each named parameter of a call's query text with the argument of the call bound to it. -/
def callParams (c : Call) : List (String × Option Arg) :=
  paramArgs c.sql c.args

/-- Replaces each positional placeholder, a `$` with the digits after it, by `?`; `skip` says
that the characters before were such a placeholder, whose further digits are dropped. -/
def unnumberAux : Bool → List Char → List Char
  | _, [] => []
  | skip, c :: cs =>
    if skip && c.isDigit then unnumberAux true cs
    else if c == '$' && (cs.head?.map Char.isDigit).getD false then '?' :: unnumberAux true cs
    else c :: unnumberAux false cs

/-- The query text with each positional placeholder `$n` replaced by `?`. -/
def unnumber (q : String) : String :=
  String.mk (unnumberAux false q.data)

end QueryText

/-! ## Connections to run the client against -/

namespace Tonga

/-- A connection without state whose `Exec` returns `execErr`, whose `Query` returns `queryErr`
and rows that collect to `collected`, and whose `QueryRow` returns a row that scans as `scan`. -/
def scriptedConn (execErr queryErr : Option GoError) (scan : ScanResult)
    (collected : Option (List Message) × Option GoError) : Conn Unit where
  Exec := fun _ _ _ u => (("", execErr), u)
  Query := fun _ _ _ u => (({ Collect := fun v => (collected, v) }, queryErr), u)
  QueryRow := fun _ _ _ u => ({ Scan := fun v => (scan, v) }, u)

/-- The state of a fresh client made by `New` over a scripted connection: no call made yet. -/
def scriptedState (execErr queryErr : Option GoError) (scan : ScanResult)
    (collected : Option (List Message) × Option GoError) : State Unit where
  c := New (scriptedConn execErr queryErr scan collected)
  trace := []
  db := ()

/-- A fresh client over a connection on which every call succeeds: the row scans `true`, the
rows collect to no message. -/
def freshState : State Unit :=
  scriptedState none none ⟨some true, none⟩ (some [], none)

/-- A fresh client over a connection whose row has nothing to scan: `Scan` stores no value and
returns an error. -/
def noRowState : State Unit :=
  scriptedState none none ⟨none, some ⟨"no rows in result set"⟩⟩ (none, none)

/-- A fresh client over a connection on which every call fails with the same error, and the
scan of a row stores no value. -/
def failingState : State Unit :=
  scriptedState (some ⟨"connection refused"⟩) (some ⟨"connection refused"⟩)
    ⟨none, some ⟨"connection refused"⟩⟩ (none, none)

/-- A `json.Marshal` for bodies of type `Bool`: `true` is written as the bytes of `true`, and
`false` stands for a value that cannot be marshaled. -/
def boolMarshal (body : Bool) : Bytes × Option GoError :=
  if body then ([116, 114, 117, 101], none) else ([], some ⟨"json: unsupported type"⟩)

end Tonga

/-! ## Query texts and issued calls -/

namespace QueryText

open Tonga

/-- The call with each positional placeholder of its query text replaced by `?`. -/
def unnumberCall (c : Call) : Call :=
  { c with sql := unnumber c.sql }

end QueryText

namespace Tonga

/-- The calls made on the connection between state `s` and the later state `t`: what the trace
of `t` holds past the length of the trace of `s`. -/
def issued {σ τ : Type} (s : State σ) (t : State τ) : List Call :=
  t.trace.drop s.trace.length

/-- The error the connection's `Exec` returns when `call` is made in state `s`. -/
def execErrOf {σ : Type} (s : State σ) (call : Call) : Option GoError :=
  (s.c.conn.Exec call.ctx call.sql call.args s.db).1.2

/-- The error the connection's `Query` returns when `call` is made in state `s`. -/
def queryErrOf {σ : Type} (s : State σ) (call : Call) : Option GoError :=
  (s.c.conn.Query call.ctx call.sql call.args s.db).1.2

/-- What `pgx.CollectRows` returns for the rows that the connection's `Query` returns when
`call` is made in state `s`. -/
def collectedOf {σ : Type} (s : State σ) (call : Call) :
    Option (List Message) × Option GoError :=
  let r := s.c.conn.Query call.ctx call.sql call.args s.db
  (r.1.1.Collect r.2).1

/-- What `Scan` does on the row that the connection's `QueryRow` returns when `call` is made in
state `s`. -/
def scanOf {σ : Type} (s : State σ) (call : Call) : ScanResult :=
  let r := s.c.conn.QueryRow call.ctx call.sql call.args s.db
  (r.1.Scan r.2).1

/-- The query literal that `src/tonga.go` uses for each shape of request. -/
def queryText : Shape → String
  | Shape.CreateChannel true =>
    "select * from tonga_create_channel(queue_name => $1, topic => $2, unlogged => $3);"
  | Shape.CreateChannel false =>
    "select * from tonga_create_channel(queue_name => $1, topic => $2, delete_at => $3, unlogged => $4);"
  | Shape.DeleteChannel => "select * from tonga_delete_channel(queue_name => $1);"
  | Shape.Send true => "select * from tonga_send(topic => $1, body => $2);"
  | Shape.Send false => "select * from tonga_send(topic => $1, body => $2, deliver_at => $3);"
  | Shape.Read => "select * from tonga_read(queue_name => $1, quantity => $2, hide_for => $3);"
  | Shape.Delete => "select * from tonga_delete(queue_name => $1, id => $2);"
  | Shape.GC => "select * from tonga_gc();"

/-- All shapes of request. -/
def allShapes : List Shape :=
  [Shape.CreateChannel true, Shape.CreateChannel false, Shape.DeleteChannel, Shape.Send true,
    Shape.Send false, Shape.Read, Shape.Delete, Shape.GC]

/-- The eight query literals of `src/tonga.go`. -/
def queryTexts : List String :=
  allShapes.map queryText

end Tonga

namespace TongaGoPgx

open Tonga

/-- The query literal that `src/tonga-go-pgx/tonga.go` uses for each shape of request. -/
def queryText : Shape → String
  | Shape.CreateChannel true =>
    "select * from tonga_create_channel(queue_name => ?, topic => ?, unlogged => ?);"
  | Shape.CreateChannel false =>
    "select * from tonga_create_channel(queue_name => ?, topic => ?, delete_at => ?, unlogged => ?);"
  | Shape.DeleteChannel => "select * from tonga_delete_channel(queue_name => ?);"
  | Shape.Send true => "select * from tonga_send(topic => ?, body => ?);"
  | Shape.Send false => "select * from tonga_send(topic => ?, body => ?, deliver_at => ?);"
  | Shape.Read => "select * from tonga_read(queue_name => ?, quantity => ?, hide_for => ?);"
  | Shape.Delete => "select * from tonga_delete(queue_name => ?, id => ?);"
  | Shape.GC => "select * from tonga_gc();"

/-- The eight query literals of `src/tonga-go-pgx/tonga.go`. -/
def queryTexts : List String :=
  allShapes.map queryText

end TongaGoPgx

/-! ## What each method does, for every input and every connection -/

namespace Tonga

theorem CreateChannel_zero {σ : Type} (ctx : Context) (queueName topic : String)
    (opts : ChannelOpts) (s : State σ) (h : opts.DeleteAt.IsZero = true) :
    CreateChannel ctx queueName topic opts s =
      ((connExec ctx
          "select * from tonga_create_channel(queue_name => $1, topic => $2, unlogged => $3);"
          [Arg.string queueName, Arg.string topic, Arg.bool opts.Unlogged] s).1.2,
       (connExec ctx
          "select * from tonga_create_channel(queue_name => $1, topic => $2, unlogged => $3);"
          [Arg.string queueName, Arg.string topic, Arg.bool opts.Unlogged] s).2) := by
  simp [CreateChannel, h]

theorem CreateChannel_nonzero {σ : Type} (ctx : Context) (queueName topic : String)
    (opts : ChannelOpts) (s : State σ) (h : opts.DeleteAt.IsZero = false) :
    CreateChannel ctx queueName topic opts s =
      ((connExec ctx
          "select * from tonga_create_channel(queue_name => $1, topic => $2, delete_at => $3, unlogged => $4);"
          [Arg.string queueName, Arg.string topic, Arg.time opts.DeleteAt,
            Arg.bool opts.Unlogged] s).1.2,
       (connExec ctx
          "select * from tonga_create_channel(queue_name => $1, topic => $2, delete_at => $3, unlogged => $4);"
          [Arg.string queueName, Arg.string topic, Arg.time opts.DeleteAt,
            Arg.bool opts.Unlogged] s).2) := by
  simp [CreateChannel, h]

theorem Send_fails {σ β : Type} (Marshal : β → Bytes × Option GoError) (ctx : Context)
    (topic : String) (body : β) (opts : SendOpts) (s : State σ) (e : GoError)
    (h : (Marshal body).2 = some e) :
    Send Marshal ctx topic body opts s = (some e, s) := by
  simp [Send, h]

theorem Send_zero {σ β : Type} (Marshal : β → Bytes × Option GoError) (ctx : Context)
    (topic : String) (body : β) (opts : SendOpts) (s : State σ)
    (hm : (Marshal body).2 = none) (h : opts.DeliverAt.IsZero = true) :
    Send Marshal ctx topic body opts s =
      ((connExec ctx "select * from tonga_send(topic => $1, body => $2);"
          [Arg.string topic, Arg.bytes (Marshal body).1] s).1.2,
       (connExec ctx "select * from tonga_send(topic => $1, body => $2);"
          [Arg.string topic, Arg.bytes (Marshal body).1] s).2) := by
  simp [Send, hm, h]

theorem Send_nonzero {σ β : Type} (Marshal : β → Bytes × Option GoError) (ctx : Context)
    (topic : String) (body : β) (opts : SendOpts) (s : State σ)
    (hm : (Marshal body).2 = none) (h : opts.DeliverAt.IsZero = false) :
    Send Marshal ctx topic body opts s =
      ((connExec ctx "select * from tonga_send(topic => $1, body => $2, deliver_at => $3);"
          [Arg.string topic, Arg.bytes (Marshal body).1, Arg.time opts.DeliverAt] s).1.2,
       (connExec ctx "select * from tonga_send(topic => $1, body => $2, deliver_at => $3);"
          [Arg.string topic, Arg.bytes (Marshal body).1, Arg.time opts.DeliverAt] s).2) := by
  simp [Send, hm, h]

theorem Read_trace {σ : Type} (ctx : Context) (queueName : String) (quantity : Int)
    (hideFor : Duration) (s : State σ) :
    (Read ctx queueName quantity hideFor s).2.trace = s.trace ++
      [⟨Method.Query, ctx,
        "select * from tonga_read(queue_name => $1, quantity => $2, hide_for => $3);",
        [Arg.string queueName, Arg.int quantity, Arg.float64Seconds hideFor]⟩] := by
  simp only [Read, connQuery, CollectRows]
  split <;> rfl

theorem Read_client {σ : Type} (ctx : Context) (queueName : String) (quantity : Int)
    (hideFor : Duration) (s : State σ) :
    (Read ctx queueName quantity hideFor s).2.c = s.c := by
  simp only [Read, connQuery, CollectRows]
  split <;> rfl

theorem Delete_trace {σ : Type} (ctx : Context) (queueName : String) (id : Int) (s : State σ) :
    (Delete ctx queueName id s).2.trace = s.trace ++
      [⟨Method.QueryRow, ctx, "select * from tonga_delete(queue_name => $1, id => $2);",
        [Arg.string queueName, Arg.int64 id]⟩] := by
  rfl

end Tonga

namespace TongaGoPgx

open Tonga

theorem CreateChannel_zero_pgx {σ : Type} (ctx : Context) (queueName topic : String)
    (opts : ChannelOpts) (s : State σ) (h : opts.DeleteAt.IsZero = true) :
    CreateChannel ctx queueName topic opts s =
      ((connExec ctx
          "select * from tonga_create_channel(queue_name => ?, topic => ?, unlogged => ?);"
          [Arg.string queueName, Arg.string topic, Arg.bool opts.Unlogged] s).1.2,
       (connExec ctx
          "select * from tonga_create_channel(queue_name => ?, topic => ?, unlogged => ?);"
          [Arg.string queueName, Arg.string topic, Arg.bool opts.Unlogged] s).2) := by
  simp [CreateChannel, h]

theorem CreateChannel_nonzero_pgx {σ : Type} (ctx : Context) (queueName topic : String)
    (opts : ChannelOpts) (s : State σ) (h : opts.DeleteAt.IsZero = false) :
    CreateChannel ctx queueName topic opts s =
      ((connExec ctx
          "select * from tonga_create_channel(queue_name => ?, topic => ?, delete_at => ?, unlogged => ?);"
          [Arg.string queueName, Arg.string topic, Arg.time opts.DeleteAt,
            Arg.bool opts.Unlogged] s).1.2,
       (connExec ctx
          "select * from tonga_create_channel(queue_name => ?, topic => ?, delete_at => ?, unlogged => ?);"
          [Arg.string queueName, Arg.string topic, Arg.time opts.DeleteAt,
            Arg.bool opts.Unlogged] s).2) := by
  simp [CreateChannel, h]

theorem Send_fails_pgx {σ β : Type} (Marshal : β → Bytes × Option GoError) (ctx : Context)
    (topic : String) (body : β) (opts : SendOpts) (s : State σ) (e : GoError)
    (h : (Marshal body).2 = some e) :
    Send Marshal ctx topic body opts s = (some e, s) := by
  simp [Send, h]

theorem Send_zero_pgx {σ β : Type} (Marshal : β → Bytes × Option GoError) (ctx : Context)
    (topic : String) (body : β) (opts : SendOpts) (s : State σ)
    (hm : (Marshal body).2 = none) (h : opts.DeliverAt.IsZero = true) :
    Send Marshal ctx topic body opts s =
      ((connExec ctx "select * from tonga_send(topic => ?, body => ?);"
          [Arg.string topic, Arg.bytes (Marshal body).1] s).1.2,
       (connExec ctx "select * from tonga_send(topic => ?, body => ?);"
          [Arg.string topic, Arg.bytes (Marshal body).1] s).2) := by
  simp [Send, hm, h]

theorem Send_nonzero_pgx {σ β : Type} (Marshal : β → Bytes × Option GoError) (ctx : Context)
    (topic : String) (body : β) (opts : SendOpts) (s : State σ)
    (hm : (Marshal body).2 = none) (h : opts.DeliverAt.IsZero = false) :
    Send Marshal ctx topic body opts s =
      ((connExec ctx "select * from tonga_send(topic => ?, body => ?, deliver_at => ?);"
          [Arg.string topic, Arg.bytes (Marshal body).1, Arg.time opts.DeliverAt] s).1.2,
       (connExec ctx "select * from tonga_send(topic => ?, body => ?, deliver_at => ?);"
          [Arg.string topic, Arg.bytes (Marshal body).1, Arg.time opts.DeliverAt] s).2) := by
  simp [Send, hm, h]

theorem Read_trace_pgx {σ : Type} (ctx : Context) (queueName : String) (quantity : Int)
    (hideFor : Duration) (s : State σ) :
    (Read ctx queueName quantity hideFor s).2.trace = s.trace ++
      [⟨Method.Query, ctx,
        "select * from tonga_read(queue_name => ?, quantity => ?, hide_for => ?);",
        [Arg.int quantity, Arg.float64Seconds hideFor]⟩] := by
  simp only [Read, connQuery, CollectRows]
  split <;> rfl

theorem Read_client_pgx {σ : Type} (ctx : Context) (queueName : String) (quantity : Int)
    (hideFor : Duration) (s : State σ) :
    (Read ctx queueName quantity hideFor s).2.c = s.c := by
  simp only [Read, connQuery, CollectRows]
  split <;> rfl

theorem Delete_trace_pgx {σ : Type} (ctx : Context) (queueName : String) (id : Int) (s : State σ) :
    (Delete ctx queueName id s).2.trace = s.trace ++
      [⟨Method.QueryRow, ctx, "select * from tonga_delete(queue_name => ?, id => ?);",
        [Arg.string queueName]⟩] := by
  rfl

end TongaGoPgx

/-! ## The calls of a request -/

namespace Tonga

theorem issued_append {σ τ : Type} (s : State σ) (t : State τ) (cs : List Call)
    (h : t.trace = s.trace ++ cs) : issued s t = cs := by
  simp [issued, h]

theorem perform_calls {β : Type} (Marshal : β → Bytes × Option GoError) (r : Request β) :
    ∃ cs : List Call, cs.length = (if r.marshalFails Marshal then 0 else 1) ∧
      (∀ c ∈ cs, c.sql = queryText r.shape) ∧
      ∀ (σ : Type) (s : State σ),
        (perform Marshal r s).2.trace = s.trace ++ cs ∧ (perform Marshal r s).2.c = s.c := by
  cases r with
  | CreateChannel ctx queueName topic opts =>
    cases h : opts.DeleteAt.IsZero with
    | true =>
      refine ⟨[⟨Method.Exec, ctx, "select * from tonga_create_channel(queue_name => $1, topic => $2, unlogged => $3);",
        [Arg.string queueName, Arg.string topic, Arg.bool opts.Unlogged]⟩], rfl,
        by simp [Request.shape, h, queryText], fun σ s => ?_⟩
      simp only [perform, CreateChannel_zero ctx queueName topic opts s h]
      exact ⟨rfl, rfl⟩
    | false =>
      refine ⟨[⟨Method.Exec, ctx, "select * from tonga_create_channel(queue_name => $1, topic => $2, delete_at => $3, unlogged => $4);",
        [Arg.string queueName, Arg.string topic, Arg.time opts.DeleteAt,
          Arg.bool opts.Unlogged]⟩], rfl,
        by simp [Request.shape, h, queryText], fun σ s => ?_⟩
      simp only [perform, CreateChannel_nonzero ctx queueName topic opts s h]
      exact ⟨rfl, rfl⟩
  | DeleteChannel ctx queueName =>
    exact ⟨[⟨Method.QueryRow, ctx, "select * from tonga_delete_channel(queue_name => $1);", [Arg.string queueName]⟩], rfl,
      by simp [Request.shape, queryText], fun σ s => ⟨rfl, rfl⟩⟩
  | Send ctx topic body opts =>
    cases hm : (Marshal body).2 with
    | some e =>
      refine ⟨[], by simp [Request.marshalFails, hm], by simp, fun σ s => ?_⟩
      simp only [perform, Send_fails Marshal ctx topic body opts s e hm]
      simp
    | none =>
      cases h : opts.DeliverAt.IsZero with
      | true =>
        refine ⟨[⟨Method.Exec, ctx, "select * from tonga_send(topic => $1, body => $2);", [Arg.string topic, Arg.bytes (Marshal body).1]⟩],
          by simp [Request.marshalFails, hm], by simp [Request.shape, h, queryText],
          fun σ s => ?_⟩
        simp only [perform, Send_zero Marshal ctx topic body opts s hm h]
        exact ⟨rfl, rfl⟩
      | false =>
        refine ⟨[⟨Method.Exec, ctx, "select * from tonga_send(topic => $1, body => $2, deliver_at => $3);",
          [Arg.string topic, Arg.bytes (Marshal body).1, Arg.time opts.DeliverAt]⟩],
          by simp [Request.marshalFails, hm], by simp [Request.shape, h, queryText],
          fun σ s => ?_⟩
        simp only [perform, Send_nonzero Marshal ctx topic body opts s hm h]
        exact ⟨rfl, rfl⟩
  | Read ctx queueName quantity hideFor =>
    exact ⟨[⟨Method.Query, ctx, "select * from tonga_read(queue_name => $1, quantity => $2, hide_for => $3);", [Arg.string queueName, Arg.int quantity, Arg.float64Seconds hideFor]⟩], rfl,
      by simp [Request.shape, queryText], fun σ s =>
        ⟨Read_trace ctx queueName quantity hideFor s,
          Read_client ctx queueName quantity hideFor s⟩⟩
  | Delete ctx queueName id =>
    exact ⟨[⟨Method.QueryRow, ctx, "select * from tonga_delete(queue_name => $1, id => $2);", [Arg.string queueName, Arg.int64 id]⟩], rfl,
      by simp [Request.shape, queryText], fun σ s => ⟨rfl, rfl⟩⟩
  | GC ctx =>
    exact ⟨[⟨Method.Exec, ctx, "select * from tonga_gc();", []⟩], rfl,
      by simp [Request.shape, queryText], fun σ s => ⟨rfl, rfl⟩⟩

end Tonga

namespace TongaGoPgx

open Tonga

theorem perform_calls_pgx {β : Type} (Marshal : β → Bytes × Option GoError) (r : Request β) :
    ∃ cs : List Call, cs.length = (if r.marshalFails Marshal then 0 else 1) ∧
      (∀ c ∈ cs, c.sql = queryText r.shape) ∧
      ∀ (σ : Type) (s : State σ),
        (perform Marshal r s).2.trace = s.trace ++ cs ∧ (perform Marshal r s).2.c = s.c := by
  cases r with
  | CreateChannel ctx queueName topic opts =>
    cases h : opts.DeleteAt.IsZero with
    | true =>
      refine ⟨[⟨Method.Exec, ctx, "select * from tonga_create_channel(queue_name => ?, topic => ?, unlogged => ?);",
        [Arg.string queueName, Arg.string topic, Arg.bool opts.Unlogged]⟩], rfl,
        by simp [Request.shape, h, queryText], fun σ s => ?_⟩
      simp only [perform, CreateChannel_zero_pgx ctx queueName topic opts s h]
      exact ⟨rfl, rfl⟩
    | false =>
      refine ⟨[⟨Method.Exec, ctx, "select * from tonga_create_channel(queue_name => ?, topic => ?, delete_at => ?, unlogged => ?);",
        [Arg.string queueName, Arg.string topic, Arg.time opts.DeleteAt,
          Arg.bool opts.Unlogged]⟩], rfl,
        by simp [Request.shape, h, queryText], fun σ s => ?_⟩
      simp only [perform, CreateChannel_nonzero_pgx ctx queueName topic opts s h]
      exact ⟨rfl, rfl⟩
  | DeleteChannel ctx queueName =>
    exact ⟨[⟨Method.QueryRow, ctx, "select * from tonga_delete_channel(queue_name => ?);", [Arg.string queueName]⟩], rfl,
      by simp [Request.shape, queryText], fun σ s => ⟨rfl, rfl⟩⟩
  | Send ctx topic body opts =>
    cases hm : (Marshal body).2 with
    | some e =>
      refine ⟨[], by simp [Request.marshalFails, hm], by simp, fun σ s => ?_⟩
      simp only [perform, Send_fails_pgx Marshal ctx topic body opts s e hm]
      simp
    | none =>
      cases h : opts.DeliverAt.IsZero with
      | true =>
        refine ⟨[⟨Method.Exec, ctx, "select * from tonga_send(topic => ?, body => ?);", [Arg.string topic, Arg.bytes (Marshal body).1]⟩],
          by simp [Request.marshalFails, hm], by simp [Request.shape, h, queryText],
          fun σ s => ?_⟩
        simp only [perform, Send_zero_pgx Marshal ctx topic body opts s hm h]
        exact ⟨rfl, rfl⟩
      | false =>
        refine ⟨[⟨Method.Exec, ctx, "select * from tonga_send(topic => ?, body => ?, deliver_at => ?);",
          [Arg.string topic, Arg.bytes (Marshal body).1, Arg.time opts.DeliverAt]⟩],
          by simp [Request.marshalFails, hm], by simp [Request.shape, h, queryText],
          fun σ s => ?_⟩
        simp only [perform, Send_nonzero_pgx Marshal ctx topic body opts s hm h]
        exact ⟨rfl, rfl⟩
  | Read ctx queueName quantity hideFor =>
    exact ⟨[⟨Method.Query, ctx, "select * from tonga_read(queue_name => ?, quantity => ?, hide_for => ?);", [Arg.int quantity, Arg.float64Seconds hideFor]⟩], rfl,
      by simp [Request.shape, queryText], fun σ s =>
        ⟨Read_trace_pgx ctx queueName quantity hideFor s,
          Read_client_pgx ctx queueName quantity hideFor s⟩⟩
  | Delete ctx queueName id =>
    exact ⟨[⟨Method.QueryRow, ctx, "select * from tonga_delete(queue_name => ?, id => ?);", [Arg.string queueName]⟩], rfl,
      by simp [Request.shape, queryText], fun σ s => ⟨rfl, rfl⟩⟩
  | GC ctx =>
    exact ⟨[⟨Method.Exec, ctx, "select * from tonga_gc();", []⟩], rfl,
      by simp [Request.shape, queryText], fun σ s => ⟨rfl, rfl⟩⟩

end TongaGoPgx

/-! ## The two files compared -/

namespace QueryText

open Tonga

theorem unnumber_queryText (sh : Shape) :
    unnumber (Tonga.queryText sh) = TongaGoPgx.queryText sh := by
  cases sh with
  | CreateChannel z => cases z <;> decide
  | Send z => cases z <;> decide
  | _ => decide

theorem perform_agree {σ β : Type} (Marshal : β → Bytes × Option GoError) (r : Request β)
    (s : State σ) (hr : r.shape ≠ Shape.Read) (hd : r.shape ≠ Shape.Delete) :
    (issued s (Tonga.perform Marshal r s).2).map unnumberCall =
      issued s (TongaGoPgx.perform Marshal r s).2 := by
  cases r with
  | CreateChannel ctx queueName topic opts =>
    cases h : opts.DeleteAt.IsZero with
    | true =>
      simp only [Tonga.perform, TongaGoPgx.perform,
        Tonga.CreateChannel_zero ctx queueName topic opts s h,
        TongaGoPgx.CreateChannel_zero_pgx ctx queueName topic opts s h]
      simp [issued, connExec, unnumberCall]
      decide
    | false =>
      simp only [Tonga.perform, TongaGoPgx.perform,
        Tonga.CreateChannel_nonzero ctx queueName topic opts s h,
        TongaGoPgx.CreateChannel_nonzero_pgx ctx queueName topic opts s h]
      simp [issued, connExec, unnumberCall]
      decide
  | DeleteChannel ctx queueName =>
    simp [Tonga.perform, TongaGoPgx.perform, Tonga.DeleteChannel, TongaGoPgx.DeleteChannel,
      issued, connQueryRow, rowScan, unnumberCall]
    decide
  | Send ctx topic body opts =>
    cases hm : (Marshal body).2 with
    | some e =>
      simp [Tonga.perform, TongaGoPgx.perform,
        Tonga.Send_fails Marshal ctx topic body opts s e hm,
        TongaGoPgx.Send_fails_pgx Marshal ctx topic body opts s e hm, issued]
    | none =>
      cases h : opts.DeliverAt.IsZero with
      | true =>
        simp only [Tonga.perform, TongaGoPgx.perform,
          Tonga.Send_zero Marshal ctx topic body opts s hm h,
          TongaGoPgx.Send_zero_pgx Marshal ctx topic body opts s hm h]
        simp [issued, connExec, unnumberCall]
        decide
      | false =>
        simp only [Tonga.perform, TongaGoPgx.perform,
          Tonga.Send_nonzero Marshal ctx topic body opts s hm h,
          TongaGoPgx.Send_nonzero_pgx Marshal ctx topic body opts s hm h]
        simp [issued, connExec, unnumberCall]
        decide
  | Read ctx queueName quantity hideFor => exact absurd rfl hr
  | Delete ctx queueName id => exact absurd rfl hd
  | GC ctx =>
    simp [Tonga.perform, TongaGoPgx.perform, Tonga.GC, TongaGoPgx.GC,
      issued, connExec, unnumberCall]
    decide

end QueryText

/-! ## Properties of the two clients -/

namespace Tonga

open QueryText

/-- C1, at the input `Read(ctx, "jobs", 10, 30s)` on a fresh client.  The client of
`src/tonga-go-pgx/tonga.go` makes one `Query` call for `tonga_read` whose argument list is
`[quantity, hideFor in seconds]`: the queue name is not bound, so the placeholder of
`queue_name` receives the quantity, that of `quantity` the seconds, and that of `hide_for`
nothing.  The client of `src/tonga.go` binds `[queueName, quantity, hideFor in seconds]` to
`queue_name`, `quantity`, `hide_for` in that order. -/
theorem Read_pgx_omits_queueName :
    (TongaGoPgx.Read ⟨0⟩ "jobs" 10 30000000000 freshState).2.trace =
        [⟨Method.Query, ⟨0⟩,
          "select * from tonga_read(queue_name => ?, quantity => ?, hide_for => ?);",
          [Arg.int 10, Arg.float64Seconds 30000000000]⟩] ∧
      (issued freshState (TongaGoPgx.Read ⟨0⟩ "jobs" 10 30000000000 freshState).2).map
          callParams =
        [[("queue_name", some (Arg.int 10)),
          ("quantity", some (Arg.float64Seconds 30000000000)), ("hide_for", none)]] ∧
      (issued freshState (Tonga.Read ⟨0⟩ "jobs" 10 30000000000 freshState).2).map callParams =
        [[("queue_name", some (Arg.string "jobs")), ("quantity", some (Arg.int 10)),
          ("hide_for", some (Arg.float64Seconds 30000000000))]] := by
  decide

/-- C2, at the input `Delete(ctx, "jobs", 7)` on a fresh client whose row scans `true`.  The
client of `src/tonga-go-pgx/tonga.go` makes one `QueryRow` call for `tonga_delete` whose
argument list is `[queueName]`: the id is not bound and the placeholder of `id` receives
nothing.  The client of `src/tonga.go` binds `[queueName, id]` to `queue_name`, `id`.  Both
return the boolean the scan stored. -/
theorem Delete_pgx_omits_id :
    (TongaGoPgx.Delete ⟨0⟩ "jobs" 7 freshState).2.trace =
        [⟨Method.QueryRow, ⟨0⟩, "select * from tonga_delete(queue_name => ?, id => ?);",
          [Arg.string "jobs"]⟩] ∧
      (issued freshState (TongaGoPgx.Delete ⟨0⟩ "jobs" 7 freshState).2).map callParams =
        [[("queue_name", some (Arg.string "jobs")), ("id", none)]] ∧
      (issued freshState (Tonga.Delete ⟨0⟩ "jobs" 7 freshState).2).map callParams =
        [[("queue_name", some (Arg.string "jobs")), ("id", some (Arg.int64 7))]] ∧
      (TongaGoPgx.Delete ⟨0⟩ "jobs" 7 freshState).1 = (true, none) ∧
      (Tonga.Delete ⟨0⟩ "jobs" 7 freshState).1 = (true, none) := by
  decide

/-- C3, at the requests `Read(ctx, "jobs", 10, 30s)` and `Delete(ctx, "jobs", 7)` on a fresh
client.  The two files make the same kind of call with query texts that are equal once `$n` is
replaced by `?`, but not with the same bound argument list: `src/tonga.go` binds three arguments
in `Read` and two in `Delete`, `src/tonga-go-pgx/tonga.go` two and one. -/
theorem variants_differ_on_Read_and_Delete :
    (issued freshState
          (Tonga.perform boolMarshal (Request.Read ⟨0⟩ "jobs" 10 30000000000) freshState).2).map
        unnumberCall ≠
      issued freshState
        (TongaGoPgx.perform boolMarshal (Request.Read ⟨0⟩ "jobs" 10 30000000000) freshState).2 ∧
    (issued freshState
          (Tonga.perform boolMarshal (Request.Read ⟨0⟩ "jobs" 10 30000000000) freshState).2).map
        (fun c => (c.method, unnumber c.sql, c.args.length)) =
      [(Method.Query,
        "select * from tonga_read(queue_name => ?, quantity => ?, hide_for => ?);", 3)] ∧
    (issued freshState
          (TongaGoPgx.perform boolMarshal (Request.Read ⟨0⟩ "jobs" 10 30000000000)
            freshState).2).map
        (fun c => (c.method, c.sql, c.args.length)) =
      [(Method.Query,
        "select * from tonga_read(queue_name => ?, quantity => ?, hide_for => ?);", 2)] ∧
    (issued freshState
          (Tonga.perform boolMarshal (Request.Delete ⟨0⟩ "jobs" 7) freshState).2).map
        (fun c => (c.method, unnumber c.sql, c.args.length)) =
      [(Method.QueryRow, "select * from tonga_delete(queue_name => ?, id => ?);", 2)] ∧
    (issued freshState
          (TongaGoPgx.perform boolMarshal (Request.Delete ⟨0⟩ "jobs" 7) freshState).2).map
        (fun c => (c.method, c.sql, c.args.length)) =
      [(Method.QueryRow, "select * from tonga_delete(queue_name => ?, id => ?);", 1)] := by
  decide

end Tonga

namespace Tonga

open QueryText

/-- C4: when `json.Marshal` gives the bytes `b` for the body, `Send` of either file makes one
`Exec` call for `tonga_send`.  If `opts.DeliverAt` is the zero time the query names the
parameters `topic` and `body` only and its argument list is `[topic, b]`; otherwise it names
`topic`, `body` and `deliver_at` and its argument list is `[topic, b, opts.DeliverAt]`, each
argument bound to the parameter at its position. -/
theorem Send_deliverAt_optional {σ β : Type} (Marshal : β → Bytes × Option GoError)
    (ctx : Context) (topic : String) (body : β) (opts : SendOpts) (s : State σ) (b : Bytes)
    (hm : Marshal body = (b, none)) :
    (opts.DeliverAt.IsZero = true →
      (∃ call, (Tonga.Send Marshal ctx topic body opts s).2.trace = s.trace ++ [call] ∧
        call.method = Method.Exec ∧ calledFunction call.sql = some "tonga_send" ∧
        call.args = [Arg.string topic, Arg.bytes b] ∧
        callParams call =
          [("topic", some (Arg.string topic)), ("body", some (Arg.bytes b))]) ∧
      (∃ call, (TongaGoPgx.Send Marshal ctx topic body opts s).2.trace = s.trace ++ [call] ∧
        call.method = Method.Exec ∧ calledFunction call.sql = some "tonga_send" ∧
        call.args = [Arg.string topic, Arg.bytes b] ∧
        callParams call =
          [("topic", some (Arg.string topic)), ("body", some (Arg.bytes b))])) ∧
    (opts.DeliverAt.IsZero = false →
      (∃ call, (Tonga.Send Marshal ctx topic body opts s).2.trace = s.trace ++ [call] ∧
        call.method = Method.Exec ∧ calledFunction call.sql = some "tonga_send" ∧
        call.args = [Arg.string topic, Arg.bytes b, Arg.time opts.DeliverAt] ∧
        callParams call =
          [("topic", some (Arg.string topic)), ("body", some (Arg.bytes b)),
            ("deliver_at", some (Arg.time opts.DeliverAt))]) ∧
      (∃ call, (TongaGoPgx.Send Marshal ctx topic body opts s).2.trace = s.trace ++ [call] ∧
        call.method = Method.Exec ∧ calledFunction call.sql = some "tonga_send" ∧
        call.args = [Arg.string topic, Arg.bytes b, Arg.time opts.DeliverAt] ∧
        callParams call =
          [("topic", some (Arg.string topic)), ("body", some (Arg.bytes b)),
            ("deliver_at", some (Arg.time opts.DeliverAt))])) := by
  have h1 : (Marshal body).2 = none := by rw [hm]
  have h2 : (Marshal body).1 = b := by rw [hm]
  refine ⟨fun h => ?_, fun h => ?_⟩
  · rw [Tonga.Send_zero Marshal ctx topic body opts s h1 h,
      TongaGoPgx.Send_zero_pgx Marshal ctx topic body opts s h1 h, h2]
    exact ⟨⟨_, rfl, rfl, rfl, rfl, rfl⟩, ⟨_, rfl, rfl, rfl, rfl, rfl⟩⟩
  · rw [Tonga.Send_nonzero Marshal ctx topic body opts s h1 h,
      TongaGoPgx.Send_nonzero_pgx Marshal ctx topic body opts s h1 h, h2]
    exact ⟨⟨_, rfl, rfl, rfl, rfl, rfl⟩, ⟨_, rfl, rfl, rfl, rfl, rfl⟩⟩

/-- C4 at `Send(ctx, "orders", true, opts)` on a fresh client, once with the zero time and once
with a later time as `opts.DeliverAt`. -/
theorem Send_deliverAt_optional_witness :
    (boolMarshal true = ([116, 114, 117, 101], none) ∧ (⟨⟨0, 0, "UTC"⟩⟩ : SendOpts).DeliverAt.IsZero = true ∧
      (∃ call, (Tonga.Send boolMarshal ⟨0⟩ "orders" true ⟨⟨0, 0, "UTC"⟩⟩ freshState).2.trace = freshState.trace ++ [call] ∧
        call.method = Method.Exec ∧ calledFunction call.sql = some "tonga_send" ∧
        call.args = [Arg.string "orders", Arg.bytes [116, 114, 117, 101]] ∧
        callParams call =
          [("topic", some (Arg.string "orders")), ("body", some (Arg.bytes [116, 114, 117, 101]))]) ∧
      (∃ call, (TongaGoPgx.Send boolMarshal ⟨0⟩ "orders" true ⟨⟨0, 0, "UTC"⟩⟩ freshState).2.trace = freshState.trace ++ [call] ∧
        call.method = Method.Exec ∧ calledFunction call.sql = some "tonga_send" ∧
        call.args = [Arg.string "orders", Arg.bytes [116, 114, 117, 101]] ∧
        callParams call =
          [("topic", some (Arg.string "orders")), ("body", some (Arg.bytes [116, 114, 117, 101]))])) ∧
    ((⟨⟨63900000000, 0, "UTC"⟩⟩ : SendOpts).DeliverAt.IsZero = false ∧
      (∃ call, (Tonga.Send boolMarshal ⟨0⟩ "orders" true ⟨⟨63900000000, 0, "UTC"⟩⟩ freshState).2.trace = freshState.trace ++ [call] ∧
        call.method = Method.Exec ∧ calledFunction call.sql = some "tonga_send" ∧
        call.args = [Arg.string "orders", Arg.bytes [116, 114, 117, 101], Arg.time (⟨⟨63900000000, 0, "UTC"⟩⟩ : SendOpts).DeliverAt] ∧
        callParams call =
          [("topic", some (Arg.string "orders")), ("body", some (Arg.bytes [116, 114, 117, 101])),
            ("deliver_at", some (Arg.time (⟨⟨63900000000, 0, "UTC"⟩⟩ : SendOpts).DeliverAt))]) ∧
      (∃ call, (TongaGoPgx.Send boolMarshal ⟨0⟩ "orders" true ⟨⟨63900000000, 0, "UTC"⟩⟩ freshState).2.trace = freshState.trace ++ [call] ∧
        call.method = Method.Exec ∧ calledFunction call.sql = some "tonga_send" ∧
        call.args = [Arg.string "orders", Arg.bytes [116, 114, 117, 101], Arg.time (⟨⟨63900000000, 0, "UTC"⟩⟩ : SendOpts).DeliverAt] ∧
        callParams call =
          [("topic", some (Arg.string "orders")), ("body", some (Arg.bytes [116, 114, 117, 101])),
            ("deliver_at", some (Arg.time (⟨⟨63900000000, 0, "UTC"⟩⟩ : SendOpts).DeliverAt))])) :=
  ⟨⟨rfl, rfl,
      (Send_deliverAt_optional boolMarshal ⟨0⟩ "orders" true ⟨⟨0, 0, "UTC"⟩⟩ freshState _ rfl).1 rfl⟩,
    ⟨rfl,
      (Send_deliverAt_optional boolMarshal ⟨0⟩ "orders" true ⟨⟨63900000000, 0, "UTC"⟩⟩ freshState _ rfl).2
        rfl⟩⟩

/-- C5: `Send` of either file marshals the body before it touches the connection.  If
`json.Marshal` fails with error `e`, `Send` returns `e` and leaves the state as it was: no call
is made on the connection.  If it gives the bytes `b`, `Send` makes one call whose second
argument, the one bound to the parameter `body`, is `b` itself. -/
theorem Send_marshals_before_any_call {σ β : Type} (Marshal : β → Bytes × Option GoError)
    (ctx : Context) (topic : String) (body : β) (opts : SendOpts) (s : State σ) :
    (∀ e : GoError, (Marshal body).2 = some e →
      Tonga.Send Marshal ctx topic body opts s = (some e, s) ∧
      TongaGoPgx.Send Marshal ctx topic body opts s = (some e, s)) ∧
    (∀ b : Bytes, Marshal body = (b, none) →
      (∃ call, (Tonga.Send Marshal ctx topic body opts s).2.trace = s.trace ++ [call] ∧
        call.args.get? 1 = some (Arg.bytes b) ∧
        (callParams call).lookup "body" = some (some (Arg.bytes b))) ∧
      (∃ call, (TongaGoPgx.Send Marshal ctx topic body opts s).2.trace = s.trace ++ [call] ∧
        call.args.get? 1 = some (Arg.bytes b) ∧
        (callParams call).lookup "body" = some (some (Arg.bytes b)))) := by
  refine ⟨fun e he => ⟨Tonga.Send_fails Marshal ctx topic body opts s e he,
    TongaGoPgx.Send_fails_pgx Marshal ctx topic body opts s e he⟩, fun b hm => ?_⟩
  have h1 : (Marshal body).2 = none := by rw [hm]
  have h2 : (Marshal body).1 = b := by rw [hm]
  cases h : opts.DeliverAt.IsZero with
  | true =>
    rw [Tonga.Send_zero Marshal ctx topic body opts s h1 h,
      TongaGoPgx.Send_zero_pgx Marshal ctx topic body opts s h1 h, h2]
    exact ⟨⟨_, rfl, rfl, rfl⟩, ⟨_, rfl, rfl, rfl⟩⟩
  | false =>
    rw [Tonga.Send_nonzero Marshal ctx topic body opts s h1 h,
      TongaGoPgx.Send_nonzero_pgx Marshal ctx topic body opts s h1 h, h2]
    exact ⟨⟨_, rfl, rfl, rfl⟩, ⟨_, rfl, rfl, rfl⟩⟩

/-- C5 at `Send(ctx, "orders", body, opts)` on a fresh client, once with a body that cannot
be marshaled and once with one that can. -/
theorem Send_marshals_before_any_call_witness :
    ((boolMarshal false).2 = some ⟨"json: unsupported type"⟩ ∧
      Tonga.Send boolMarshal ⟨0⟩ "orders" false ⟨⟨0, 0, "UTC"⟩⟩ freshState =
        (some ⟨"json: unsupported type"⟩, freshState) ∧
      TongaGoPgx.Send boolMarshal ⟨0⟩ "orders" false ⟨⟨0, 0, "UTC"⟩⟩ freshState =
        (some ⟨"json: unsupported type"⟩, freshState)) ∧
    (boolMarshal true = ([116, 114, 117, 101], none) ∧
      (∃ call, (Tonga.Send boolMarshal ⟨0⟩ "orders" true ⟨⟨0, 0, "UTC"⟩⟩ freshState).2.trace = freshState.trace ++ [call] ∧
        call.args.get? 1 = some (Arg.bytes [116, 114, 117, 101]) ∧
        (callParams call).lookup "body" = some (some (Arg.bytes [116, 114, 117, 101]))) ∧
      (∃ call, (TongaGoPgx.Send boolMarshal ⟨0⟩ "orders" true ⟨⟨0, 0, "UTC"⟩⟩ freshState).2.trace = freshState.trace ++ [call] ∧
        call.args.get? 1 = some (Arg.bytes [116, 114, 117, 101]) ∧
        (callParams call).lookup "body" = some (some (Arg.bytes [116, 114, 117, 101])))) :=
  ⟨⟨rfl, (Send_marshals_before_any_call boolMarshal ⟨0⟩ "orders" false ⟨⟨0, 0, "UTC"⟩⟩ freshState).1
      _ rfl⟩,
    ⟨rfl, (Send_marshals_before_any_call boolMarshal ⟨0⟩ "orders" true ⟨⟨0, 0, "UTC"⟩⟩ freshState).2
      _ rfl⟩⟩

/-- C6: `CreateChannel` of either file makes one `Exec` call for `tonga_create_channel`.  If
`opts.DeleteAt` is the zero time the query names the parameters `queue_name`, `topic` and
`unlogged` only and its argument list is `[queueName, topic, opts.Unlogged]`; otherwise it names
`queue_name`, `topic`, `delete_at` and `unlogged` and its argument list is
`[queueName, topic, opts.DeleteAt, opts.Unlogged]`.  In both cases each argument is bound to the
named parameter it belongs to. -/
theorem CreateChannel_deleteAt_optional {σ : Type} (ctx : Context) (queueName topic : String)
    (opts : ChannelOpts) (s : State σ) :
    (opts.DeleteAt.IsZero = true →
      (∃ call, (Tonga.CreateChannel ctx queueName topic opts s).2.trace = s.trace ++ [call] ∧
        call.method = Method.Exec ∧
        calledFunction call.sql = some "tonga_create_channel" ∧
        call.args = [Arg.string queueName, Arg.string topic, Arg.bool opts.Unlogged] ∧
        callParams call =
          [("queue_name", some (Arg.string queueName)), ("topic", some (Arg.string topic)),
            ("unlogged", some (Arg.bool opts.Unlogged))]) ∧
      (∃ call, (TongaGoPgx.CreateChannel ctx queueName topic opts s).2.trace = s.trace ++ [call] ∧
        call.method = Method.Exec ∧
        calledFunction call.sql = some "tonga_create_channel" ∧
        call.args = [Arg.string queueName, Arg.string topic, Arg.bool opts.Unlogged] ∧
        callParams call =
          [("queue_name", some (Arg.string queueName)), ("topic", some (Arg.string topic)),
            ("unlogged", some (Arg.bool opts.Unlogged))])) ∧
    (opts.DeleteAt.IsZero = false →
      (∃ call, (Tonga.CreateChannel ctx queueName topic opts s).2.trace = s.trace ++ [call] ∧
        call.method = Method.Exec ∧
        calledFunction call.sql = some "tonga_create_channel" ∧
        call.args = [Arg.string queueName, Arg.string topic, Arg.time opts.DeleteAt,
          Arg.bool opts.Unlogged] ∧
        callParams call =
          [("queue_name", some (Arg.string queueName)), ("topic", some (Arg.string topic)),
            ("delete_at", some (Arg.time opts.DeleteAt)),
            ("unlogged", some (Arg.bool opts.Unlogged))]) ∧
      (∃ call, (TongaGoPgx.CreateChannel ctx queueName topic opts s).2.trace = s.trace ++ [call] ∧
        call.method = Method.Exec ∧
        calledFunction call.sql = some "tonga_create_channel" ∧
        call.args = [Arg.string queueName, Arg.string topic, Arg.time opts.DeleteAt,
          Arg.bool opts.Unlogged] ∧
        callParams call =
          [("queue_name", some (Arg.string queueName)), ("topic", some (Arg.string topic)),
            ("delete_at", some (Arg.time opts.DeleteAt)),
            ("unlogged", some (Arg.bool opts.Unlogged))])) := by
  refine ⟨fun h => ?_, fun h => ?_⟩
  · rw [Tonga.CreateChannel_zero ctx queueName topic opts s h,
      TongaGoPgx.CreateChannel_zero_pgx ctx queueName topic opts s h]
    exact ⟨⟨_, rfl, rfl, rfl, rfl, rfl⟩, ⟨_, rfl, rfl, rfl, rfl, rfl⟩⟩
  · rw [Tonga.CreateChannel_nonzero ctx queueName topic opts s h,
      TongaGoPgx.CreateChannel_nonzero_pgx ctx queueName topic opts s h]
    exact ⟨⟨_, rfl, rfl, rfl, rfl, rfl⟩, ⟨_, rfl, rfl, rfl, rfl, rfl⟩⟩

/-- C6 at `CreateChannel(ctx, "jobs", "orders", opts)` on a fresh client, once with the zero
time and once with a later time as `opts.DeleteAt`. -/
theorem CreateChannel_deleteAt_optional_witness :
    ((⟨⟨0, 0, "UTC"⟩, true⟩ : ChannelOpts).DeleteAt.IsZero = true ∧
      (∃ call, (Tonga.CreateChannel ⟨0⟩ "jobs" "orders" ⟨⟨0, 0, "UTC"⟩, true⟩ freshState).2.trace = freshState.trace ++ [call] ∧
        call.method = Method.Exec ∧
        calledFunction call.sql = some "tonga_create_channel" ∧
        call.args = [Arg.string "jobs", Arg.string "orders", Arg.bool true] ∧
        callParams call =
          [("queue_name", some (Arg.string "jobs")), ("topic", some (Arg.string "orders")),
            ("unlogged", some (Arg.bool true))]) ∧
      (∃ call, (TongaGoPgx.CreateChannel ⟨0⟩ "jobs" "orders" ⟨⟨0, 0, "UTC"⟩, true⟩ freshState).2.trace = freshState.trace ++ [call] ∧
        call.method = Method.Exec ∧
        calledFunction call.sql = some "tonga_create_channel" ∧
        call.args = [Arg.string "jobs", Arg.string "orders", Arg.bool true] ∧
        callParams call =
          [("queue_name", some (Arg.string "jobs")), ("topic", some (Arg.string "orders")),
            ("unlogged", some (Arg.bool true))])) ∧
    ((⟨⟨63900000000, 0, "UTC"⟩, false⟩ : ChannelOpts).DeleteAt.IsZero = false ∧
      (∃ call, (Tonga.CreateChannel ⟨0⟩ "jobs" "orders" ⟨⟨63900000000, 0, "UTC"⟩, false⟩ freshState).2.trace = freshState.trace ++ [call] ∧
        call.method = Method.Exec ∧
        calledFunction call.sql = some "tonga_create_channel" ∧
        call.args = [Arg.string "jobs", Arg.string "orders", Arg.time ⟨63900000000, 0, "UTC"⟩,
          Arg.bool false] ∧
        callParams call =
          [("queue_name", some (Arg.string "jobs")), ("topic", some (Arg.string "orders")),
            ("delete_at", some (Arg.time ⟨63900000000, 0, "UTC"⟩)),
            ("unlogged", some (Arg.bool false))]) ∧
      (∃ call, (TongaGoPgx.CreateChannel ⟨0⟩ "jobs" "orders" ⟨⟨63900000000, 0, "UTC"⟩, false⟩ freshState).2.trace = freshState.trace ++ [call] ∧
        call.method = Method.Exec ∧
        calledFunction call.sql = some "tonga_create_channel" ∧
        call.args = [Arg.string "jobs", Arg.string "orders", Arg.time ⟨63900000000, 0, "UTC"⟩,
          Arg.bool false] ∧
        callParams call =
          [("queue_name", some (Arg.string "jobs")), ("topic", some (Arg.string "orders")),
            ("delete_at", some (Arg.time ⟨63900000000, 0, "UTC"⟩)),
            ("unlogged", some (Arg.bool false))])) :=
  ⟨⟨rfl, (CreateChannel_deleteAt_optional ⟨0⟩ "jobs" "orders" ⟨⟨0, 0, "UTC"⟩, true⟩ freshState).1 rfl⟩,
    ⟨rfl, (CreateChannel_deleteAt_optional ⟨0⟩ "jobs" "orders" ⟨⟨63900000000, 0, "UTC"⟩, false⟩ freshState).2 rfl⟩⟩

end Tonga

namespace Tonga

theorem mem_allShapes (sh : Shape) : sh ∈ allShapes := by
  cases sh with
  | CreateChannel z => cases z <;> simp [allShapes]
  | Send z => cases z <;> simp [allShapes]
  | _ => simp [allShapes]

end Tonga

namespace Tonga

open QueryText

/-- C7: `DeleteChannel` of either file makes one `QueryRow` call for `tonga_delete_channel`
whose argument list is `[queueName]`, bound to `queue_name`.  It returns the error of the row's
`Scan`, and as its boolean the value the scan stored; when the scan stored none, the boolean is
`false`. -/
theorem DeleteChannel_reports_existed {σ : Type} (ctx : Context) (queueName : String)
    (s : State σ) :
    (∃ call, (Tonga.DeleteChannel ctx queueName s).2.trace = s.trace ++ [call] ∧
      call.method = Method.QueryRow ∧
      calledFunction call.sql = some "tonga_delete_channel" ∧
      call.args = [Arg.string queueName] ∧
      callParams call = [("queue_name", some (Arg.string queueName))] ∧
      (Tonga.DeleteChannel ctx queueName s).1.2 = (scanOf s call).err ∧
      (∀ v : Bool, (scanOf s call).wrote = some v →
        (Tonga.DeleteChannel ctx queueName s).1.1 = v) ∧
      ((scanOf s call).wrote = none →
        (Tonga.DeleteChannel ctx queueName s).1.1 = false)) ∧
    (∃ call, (TongaGoPgx.DeleteChannel ctx queueName s).2.trace = s.trace ++ [call] ∧
      call.method = Method.QueryRow ∧
      calledFunction call.sql = some "tonga_delete_channel" ∧
      call.args = [Arg.string queueName] ∧
      callParams call = [("queue_name", some (Arg.string queueName))] ∧
      (TongaGoPgx.DeleteChannel ctx queueName s).1.2 = (scanOf s call).err ∧
      (∀ v : Bool, (scanOf s call).wrote = some v →
        (TongaGoPgx.DeleteChannel ctx queueName s).1.1 = v) ∧
      ((scanOf s call).wrote = none →
        (TongaGoPgx.DeleteChannel ctx queueName s).1.1 = false)) := by
  refine ⟨⟨⟨Method.QueryRow, ctx, "select * from tonga_delete_channel(queue_name => $1);",
      [Arg.string queueName]⟩, rfl, rfl, rfl, rfl, rfl, rfl, fun v hv => ?_, fun hv => ?_⟩,
    ⟨⟨Method.QueryRow, ctx, "select * from tonga_delete_channel(queue_name => ?);",
      [Arg.string queueName]⟩, rfl, rfl, rfl, rfl, rfl, rfl, fun v hv => ?_, fun hv => ?_⟩⟩
  · simp only [scanOf] at hv
    simp [Tonga.DeleteChannel, connQueryRow, rowScan, hv]
  · simp only [scanOf] at hv
    simp [Tonga.DeleteChannel, connQueryRow, rowScan, hv]
  · simp only [scanOf] at hv
    simp [TongaGoPgx.DeleteChannel, connQueryRow, rowScan, hv]
  · simp only [scanOf] at hv
    simp [TongaGoPgx.DeleteChannel, connQueryRow, rowScan, hv]

/-- C7 at `DeleteChannel(ctx, "jobs")`, on a fresh client whose row scans `true` and on one
whose scan fails without storing a value. -/
theorem DeleteChannel_reports_existed_witness :
    ((Tonga.DeleteChannel ⟨0⟩ "jobs" freshState).1 = (true, none) ∧
      (TongaGoPgx.DeleteChannel ⟨0⟩ "jobs" freshState).1 = (true, none) ∧
      (Tonga.DeleteChannel ⟨0⟩ "jobs" noRowState).1 =
        (false, some ⟨"no rows in result set"⟩) ∧
      (TongaGoPgx.DeleteChannel ⟨0⟩ "jobs" noRowState).1 =
        (false, some ⟨"no rows in result set"⟩)) ∧
    ((∃ call, (Tonga.DeleteChannel ⟨0⟩ "jobs" noRowState).2.trace = noRowState.trace ++ [call] ∧
      call.method = Method.QueryRow ∧
      calledFunction call.sql = some "tonga_delete_channel" ∧
      call.args = [Arg.string "jobs"] ∧
      callParams call = [("queue_name", some (Arg.string "jobs"))] ∧
      (Tonga.DeleteChannel ⟨0⟩ "jobs" noRowState).1.2 = (scanOf noRowState call).err ∧
      (∀ v : Bool, (scanOf noRowState call).wrote = some v →
        (Tonga.DeleteChannel ⟨0⟩ "jobs" noRowState).1.1 = v) ∧
      ((scanOf noRowState call).wrote = none →
        (Tonga.DeleteChannel ⟨0⟩ "jobs" noRowState).1.1 = false)) ∧
    (∃ call, (TongaGoPgx.DeleteChannel ⟨0⟩ "jobs" noRowState).2.trace = noRowState.trace ++ [call] ∧
      call.method = Method.QueryRow ∧
      calledFunction call.sql = some "tonga_delete_channel" ∧
      call.args = [Arg.string "jobs"] ∧
      callParams call = [("queue_name", some (Arg.string "jobs"))] ∧
      (TongaGoPgx.DeleteChannel ⟨0⟩ "jobs" noRowState).1.2 = (scanOf noRowState call).err ∧
      (∀ v : Bool, (scanOf noRowState call).wrote = some v →
        (TongaGoPgx.DeleteChannel ⟨0⟩ "jobs" noRowState).1.1 = v) ∧
      ((scanOf noRowState call).wrote = none →
        (TongaGoPgx.DeleteChannel ⟨0⟩ "jobs" noRowState).1.1 = false))) :=
  ⟨by decide, DeleteChannel_reports_existed ⟨0⟩ "jobs" noRowState⟩

/-- C8: in either file an operation returns the driver's error as it is.  `CreateChannel`,
`Send` (when `json.Marshal` accepts the body) and `GC` make one `Exec` call and return exactly
the error it returns, `nil` included.  `Read` makes one `Query` call; when that returns the
error `e`, `Read` returns `(nil, e)`, and otherwise it returns what `pgx.CollectRows` returns.
`DeleteChannel` and `Delete` make one `QueryRow` call and return exactly the error of the row's
`Scan`. -/
theorem driver_errors_propagate {σ β : Type} (Marshal : β → Bytes × Option GoError)
    (ctx : Context) (queueName topic : String) (chOpts : ChannelOpts) (body : β)
    (sOpts : SendOpts) (quantity : Int) (hideFor : Duration) (id : Int) (s : State σ)
    (hm : (Marshal body).2 = none) :
    ((∃ call, (Tonga.CreateChannel ctx queueName topic chOpts s).2.trace = s.trace ++ [call] ∧
      call.method = Method.Exec ∧
      (Tonga.CreateChannel ctx queueName topic chOpts s).1 = execErrOf s call) ∧
    (∃ call, (Tonga.Send Marshal ctx topic body sOpts s).2.trace = s.trace ++ [call] ∧
      call.method = Method.Exec ∧
      (Tonga.Send Marshal ctx topic body sOpts s).1 = execErrOf s call) ∧
    (∃ call, (Tonga.GC ctx s).2.trace = s.trace ++ [call] ∧
      call.method = Method.Exec ∧
      (Tonga.GC ctx s).1 = execErrOf s call) ∧
    (∃ call, (Tonga.Read ctx queueName quantity hideFor s).2.trace = s.trace ++ [call] ∧
      call.method = Method.Query ∧
      (∀ e : GoError, queryErrOf s call = some e →
        (Tonga.Read ctx queueName quantity hideFor s).1 = (none, some e)) ∧
      (queryErrOf s call = none →
        (Tonga.Read ctx queueName quantity hideFor s).1 = collectedOf s call)) ∧
    (∃ call, (Tonga.DeleteChannel ctx queueName s).2.trace = s.trace ++ [call] ∧
      call.method = Method.QueryRow ∧
      (Tonga.DeleteChannel ctx queueName s).1.2 = (scanOf s call).err) ∧
    (∃ call, (Tonga.Delete ctx queueName id s).2.trace = s.trace ++ [call] ∧
      call.method = Method.QueryRow ∧
      (Tonga.Delete ctx queueName id s).1.2 = (scanOf s call).err)) ∧
    ((∃ call, (TongaGoPgx.CreateChannel ctx queueName topic chOpts s).2.trace = s.trace ++ [call] ∧
      call.method = Method.Exec ∧
      (TongaGoPgx.CreateChannel ctx queueName topic chOpts s).1 = execErrOf s call) ∧
    (∃ call, (TongaGoPgx.Send Marshal ctx topic body sOpts s).2.trace = s.trace ++ [call] ∧
      call.method = Method.Exec ∧
      (TongaGoPgx.Send Marshal ctx topic body sOpts s).1 = execErrOf s call) ∧
    (∃ call, (TongaGoPgx.GC ctx s).2.trace = s.trace ++ [call] ∧
      call.method = Method.Exec ∧
      (TongaGoPgx.GC ctx s).1 = execErrOf s call) ∧
    (∃ call, (TongaGoPgx.Read ctx queueName quantity hideFor s).2.trace = s.trace ++ [call] ∧
      call.method = Method.Query ∧
      (∀ e : GoError, queryErrOf s call = some e →
        (TongaGoPgx.Read ctx queueName quantity hideFor s).1 = (none, some e)) ∧
      (queryErrOf s call = none →
        (TongaGoPgx.Read ctx queueName quantity hideFor s).1 = collectedOf s call)) ∧
    (∃ call, (TongaGoPgx.DeleteChannel ctx queueName s).2.trace = s.trace ++ [call] ∧
      call.method = Method.QueryRow ∧
      (TongaGoPgx.DeleteChannel ctx queueName s).1.2 = (scanOf s call).err) ∧
    (∃ call, (TongaGoPgx.Delete ctx queueName id s).2.trace = s.trace ++ [call] ∧
      call.method = Method.QueryRow ∧
      (TongaGoPgx.Delete ctx queueName id s).1.2 = (scanOf s call).err)) := by
  refine ⟨⟨?_, ?_, ?_, ?_, ?_, ?_⟩, ⟨?_, ?_, ?_, ?_, ?_, ?_⟩⟩
  · cases h : chOpts.DeleteAt.IsZero with
    | true =>
      rw [Tonga.CreateChannel_zero ctx queueName topic chOpts s h]
      exact ⟨_, rfl, rfl, rfl⟩
    | false =>
      rw [Tonga.CreateChannel_nonzero ctx queueName topic chOpts s h]
      exact ⟨_, rfl, rfl, rfl⟩
  · cases h : sOpts.DeliverAt.IsZero with
    | true =>
      rw [Tonga.Send_zero Marshal ctx topic body sOpts s hm h]
      exact ⟨_, rfl, rfl, rfl⟩
    | false =>
      rw [Tonga.Send_nonzero Marshal ctx topic body sOpts s hm h]
      exact ⟨_, rfl, rfl, rfl⟩
  · exact ⟨_, rfl, rfl, rfl⟩
  · refine ⟨⟨Method.Query, ctx, "select * from tonga_read(queue_name => $1, quantity => $2, hide_for => $3);",
      [Arg.string queueName, Arg.int quantity, Arg.float64Seconds hideFor]⟩,
      Tonga.Read_trace ctx queueName quantity hideFor s, rfl, fun e he => ?_, fun he => ?_⟩
    · simp only [queryErrOf] at he
      simp [Tonga.Read, connQuery, he]
    · simp only [queryErrOf] at he
      simp [Tonga.Read, connQuery, CollectRows, collectedOf, he]
  · exact ⟨_, rfl, rfl, rfl⟩
  · exact ⟨_, rfl, rfl, rfl⟩
  · cases h : chOpts.DeleteAt.IsZero with
    | true =>
      rw [TongaGoPgx.CreateChannel_zero_pgx ctx queueName topic chOpts s h]
      exact ⟨_, rfl, rfl, rfl⟩
    | false =>
      rw [TongaGoPgx.CreateChannel_nonzero_pgx ctx queueName topic chOpts s h]
      exact ⟨_, rfl, rfl, rfl⟩
  · cases h : sOpts.DeliverAt.IsZero with
    | true =>
      rw [TongaGoPgx.Send_zero_pgx Marshal ctx topic body sOpts s hm h]
      exact ⟨_, rfl, rfl, rfl⟩
    | false =>
      rw [TongaGoPgx.Send_nonzero_pgx Marshal ctx topic body sOpts s hm h]
      exact ⟨_, rfl, rfl, rfl⟩
  · exact ⟨_, rfl, rfl, rfl⟩
  · refine ⟨⟨Method.Query, ctx, "select * from tonga_read(queue_name => ?, quantity => ?, hide_for => ?);",
      [Arg.int quantity, Arg.float64Seconds hideFor]⟩,
      TongaGoPgx.Read_trace_pgx ctx queueName quantity hideFor s, rfl, fun e he => ?_, fun he => ?_⟩
    · simp only [queryErrOf] at he
      simp [TongaGoPgx.Read, connQuery, he]
    · simp only [queryErrOf] at he
      simp [TongaGoPgx.Read, connQuery, CollectRows, collectedOf, he]
  · exact ⟨_, rfl, rfl, rfl⟩
  · exact ⟨_, rfl, rfl, rfl⟩

/-- C8 on a fresh client over a connection on which every call fails with one error. -/
theorem driver_errors_propagate_witness :
    ((boolMarshal true).2 = none ∧
      (Tonga.CreateChannel ⟨0⟩ "jobs" "orders" ⟨⟨0, 0, "UTC"⟩, true⟩ failingState).1 =
        some ⟨"connection refused"⟩ ∧
      (Tonga.Send boolMarshal ⟨0⟩ "orders" true ⟨⟨0, 0, "UTC"⟩⟩ failingState).1 =
        some ⟨"connection refused"⟩ ∧
      (Tonga.GC ⟨0⟩ failingState).1 = some ⟨"connection refused"⟩ ∧
      (Tonga.Read ⟨0⟩ "jobs" 10 30000000000 failingState).1 =
        (none, some ⟨"connection refused"⟩) ∧
      (Tonga.DeleteChannel ⟨0⟩ "jobs" failingState).1 =
        (false, some ⟨"connection refused"⟩) ∧
      (TongaGoPgx.Delete ⟨0⟩ "jobs" 7 failingState).1 =
        (false, some ⟨"connection refused"⟩)) ∧
    ((
    (∃ call, (Tonga.CreateChannel ⟨0⟩ "jobs" "orders" ⟨⟨0, 0, "UTC"⟩, true⟩ failingState).2.trace = failingState.trace ++ [call] ∧
      call.method = Method.Exec ∧
      (Tonga.CreateChannel ⟨0⟩ "jobs" "orders" ⟨⟨0, 0, "UTC"⟩, true⟩ failingState).1 = execErrOf failingState call) ∧
    (∃ call, (Tonga.Send boolMarshal ⟨0⟩ "orders" true ⟨⟨0, 0, "UTC"⟩⟩ failingState).2.trace = failingState.trace ++ [call] ∧
      call.method = Method.Exec ∧
      (Tonga.Send boolMarshal ⟨0⟩ "orders" true ⟨⟨0, 0, "UTC"⟩⟩ failingState).1 = execErrOf failingState call) ∧
    (∃ call, (Tonga.GC ⟨0⟩ failingState).2.trace = failingState.trace ++ [call] ∧
      call.method = Method.Exec ∧
      (Tonga.GC ⟨0⟩ failingState).1 = execErrOf failingState call) ∧
    (∃ call, (Tonga.Read ⟨0⟩ "jobs" 10 30000000000 failingState).2.trace = failingState.trace ++ [call] ∧
      call.method = Method.Query ∧
      (∀ e : GoError, queryErrOf failingState call = some e →
        (Tonga.Read ⟨0⟩ "jobs" 10 30000000000 failingState).1 = (none, some e)) ∧
      (queryErrOf failingState call = none →
        (Tonga.Read ⟨0⟩ "jobs" 10 30000000000 failingState).1 = collectedOf failingState call)) ∧
    (∃ call, (Tonga.DeleteChannel ⟨0⟩ "jobs" failingState).2.trace = failingState.trace ++ [call] ∧
      call.method = Method.QueryRow ∧
      (Tonga.DeleteChannel ⟨0⟩ "jobs" failingState).1.2 = (scanOf failingState call).err) ∧
    (∃ call, (Tonga.Delete ⟨0⟩ "jobs" 7 failingState).2.trace = failingState.trace ++ [call] ∧
      call.method = Method.QueryRow ∧
      (Tonga.Delete ⟨0⟩ "jobs" 7 failingState).1.2 = (scanOf failingState call).err)) ∧
    ((∃ call, (TongaGoPgx.CreateChannel ⟨0⟩ "jobs" "orders" ⟨⟨0, 0, "UTC"⟩, true⟩ failingState).2.trace = failingState.trace ++ [call] ∧
      call.method = Method.Exec ∧
      (TongaGoPgx.CreateChannel ⟨0⟩ "jobs" "orders" ⟨⟨0, 0, "UTC"⟩, true⟩ failingState).1 = execErrOf failingState call) ∧
    (∃ call, (TongaGoPgx.Send boolMarshal ⟨0⟩ "orders" true ⟨⟨0, 0, "UTC"⟩⟩ failingState).2.trace = failingState.trace ++ [call] ∧
      call.method = Method.Exec ∧
      (TongaGoPgx.Send boolMarshal ⟨0⟩ "orders" true ⟨⟨0, 0, "UTC"⟩⟩ failingState).1 = execErrOf failingState call) ∧
    (∃ call, (TongaGoPgx.GC ⟨0⟩ failingState).2.trace = failingState.trace ++ [call] ∧
      call.method = Method.Exec ∧
      (TongaGoPgx.GC ⟨0⟩ failingState).1 = execErrOf failingState call) ∧
    (∃ call, (TongaGoPgx.Read ⟨0⟩ "jobs" 10 30000000000 failingState).2.trace = failingState.trace ++ [call] ∧
      call.method = Method.Query ∧
      (∀ e : GoError, queryErrOf failingState call = some e →
        (TongaGoPgx.Read ⟨0⟩ "jobs" 10 30000000000 failingState).1 = (none, some e)) ∧
      (queryErrOf failingState call = none →
        (TongaGoPgx.Read ⟨0⟩ "jobs" 10 30000000000 failingState).1 = collectedOf failingState call)) ∧
    (∃ call, (TongaGoPgx.DeleteChannel ⟨0⟩ "jobs" failingState).2.trace = failingState.trace ++ [call] ∧
      call.method = Method.QueryRow ∧
      (TongaGoPgx.DeleteChannel ⟨0⟩ "jobs" failingState).1.2 = (scanOf failingState call).err) ∧
    (∃ call, (TongaGoPgx.Delete ⟨0⟩ "jobs" 7 failingState).2.trace = failingState.trace ++ [call] ∧
      call.method = Method.QueryRow ∧
      (TongaGoPgx.Delete ⟨0⟩ "jobs" 7 failingState).1.2 = (scanOf failingState call).err))) :=
  ⟨by decide,
    driver_errors_propagate boolMarshal ⟨0⟩ "jobs" "orders" ⟨⟨0, 0, "UTC"⟩, true⟩ true ⟨⟨0, 0, "UTC"⟩⟩ 10
      30000000000 7 failingState rfl⟩

/-- C9: in either file the query text of every call is a literal fixed by the shape of the
request alone, that is by the method and by whether the optional time is zero, and it is one
of the file's eight literals.  So two requests of the same shape, which differ only in the
context, `queueName`, `topic`, `body`, `id`, `quantity`, `hideFor`, `Unlogged` or the value of a
non-zero time, send the same text from whatever states they start: the values are passed in the
argument list only. -/
theorem query_text_is_constant {σ τ β : Type} (Marshal : β → Bytes × Option GoError)
    (r r' : Request β) (s : State σ) (s' : State τ) :
    (∀ c ∈ issued s (Tonga.perform Marshal r s).2,
      c.sql = Tonga.queryText r.shape ∧ c.sql ∈ Tonga.queryTexts) ∧
    (∀ c ∈ issued s (TongaGoPgx.perform Marshal r s).2,
      c.sql = TongaGoPgx.queryText r.shape ∧ c.sql ∈ TongaGoPgx.queryTexts) ∧
    (r.shape = r'.shape →
      (∀ c ∈ issued s (Tonga.perform Marshal r s).2,
        ∀ c' ∈ issued s' (Tonga.perform Marshal r' s').2, c.sql = c'.sql) ∧
      (∀ c ∈ issued s (TongaGoPgx.perform Marshal r s).2,
        ∀ c' ∈ issued s' (TongaGoPgx.perform Marshal r' s').2, c.sql = c'.sql)) := by
  obtain ⟨cs, -, hsql, htr⟩ := Tonga.perform_calls Marshal r
  obtain ⟨cs', -, hsql', htr'⟩ := Tonga.perform_calls Marshal r'
  obtain ⟨ds, -, gsql, gtr⟩ := TongaGoPgx.perform_calls_pgx Marshal r
  obtain ⟨ds', -, gsql', gtr'⟩ := TongaGoPgx.perform_calls_pgx Marshal r'
  rw [issued_append s _ cs (htr σ s).1, issued_append s' _ cs' (htr' τ s').1,
    issued_append s _ ds (gtr σ s).1, issued_append s' _ ds' (gtr' τ s').1]
  refine ⟨fun c hc => ⟨hsql c hc, ?_⟩, fun c hc => ⟨gsql c hc, ?_⟩, fun h => ⟨?_, ?_⟩⟩
  · rw [hsql c hc]
    exact List.mem_map_of_mem _ (mem_allShapes _)
  · rw [gsql c hc]
    exact List.mem_map_of_mem _ (mem_allShapes _)
  · intro c hc c' hc'
    rw [hsql c hc, hsql' c' hc', h]
  · intro c hc c' hc'
    rw [gsql c hc, gsql' c' hc', h]

/-- C9 at two `CreateChannel` requests that differ in the context, the queue name, the topic,
the non-zero time and the `Unlogged` flag, the second one made after the first. -/
theorem query_text_is_constant_witness :
    ((Request.CreateChannel ⟨0⟩ "jobs" "orders" ⟨⟨63900000000, 0, "UTC"⟩, false⟩) : Request Bool).shape =
        ((Request.CreateChannel ⟨1⟩ "mail" "invoices" ⟨⟨64000000000, 5, "CET"⟩, true⟩) : Request Bool).shape ∧
      (∀ c ∈ issued freshState
          (Tonga.perform boolMarshal
            (Request.CreateChannel ⟨0⟩ "jobs" "orders" ⟨⟨63900000000, 0, "UTC"⟩, false⟩) freshState).2,
        ∀ c' ∈ issued
            (Tonga.perform boolMarshal
              (Request.CreateChannel ⟨0⟩ "jobs" "orders" ⟨⟨63900000000, 0, "UTC"⟩, false⟩) freshState).2
            (Tonga.perform boolMarshal
              (Request.CreateChannel ⟨1⟩ "mail" "invoices" ⟨⟨64000000000, 5, "CET"⟩, true⟩)
              (Tonga.perform boolMarshal
                (Request.CreateChannel ⟨0⟩ "jobs" "orders" ⟨⟨63900000000, 0, "UTC"⟩, false⟩) freshState).2).2,
          c.sql = c'.sql) :=
  ⟨rfl,
    ((query_text_is_constant boolMarshal
        (Request.CreateChannel ⟨0⟩ "jobs" "orders" ⟨⟨63900000000, 0, "UTC"⟩, false⟩)
        (Request.CreateChannel ⟨1⟩ "mail" "invoices" ⟨⟨64000000000, 5, "CET"⟩, true⟩) freshState
        (Tonga.perform boolMarshal
          (Request.CreateChannel ⟨0⟩ "jobs" "orders" ⟨⟨63900000000, 0, "UTC"⟩, false⟩) freshState).2).2.2
      rfl).1⟩

/-- C10: in either file a request is answered by a stateless wrapper.  The calls it makes on
the connection are a list `cs` fixed by the request (its own arguments and what `json.Marshal`
says of its body) and by nothing else: from every state, whatever was done before on the same
client and whatever the connection is, the trace grows by exactly `cs`.  The list holds at most
one call, and exactly one unless the request is a `Send` whose body cannot be marshaled.  The
`Client` is left as it was, so its `conn` is still the one `New` was given. -/
theorem client_is_stateless {β : Type} (Marshal : β → Bytes × Option GoError)
    (r : Request β) :
    (∃ cs : List Call, cs.length ≤ 1 ∧ (cs.length = 1 ↔ r.marshalFails Marshal = false) ∧
      ∀ (σ : Type) (s : State σ),
        (Tonga.perform Marshal r s).2.trace = s.trace ++ cs ∧
        (Tonga.perform Marshal r s).2.c = s.c ∧
        ∀ conn : Conn σ, s.c = New conn → (Tonga.perform Marshal r s).2.c.conn = conn) ∧
    (∃ cs : List Call, cs.length ≤ 1 ∧ (cs.length = 1 ↔ r.marshalFails Marshal = false) ∧
      ∀ (σ : Type) (s : State σ),
        (TongaGoPgx.perform Marshal r s).2.trace = s.trace ++ cs ∧
        (TongaGoPgx.perform Marshal r s).2.c = s.c ∧
        ∀ conn : Conn σ, s.c = New conn → (TongaGoPgx.perform Marshal r s).2.c.conn = conn) := by
  obtain ⟨cs, hlen, -, htr⟩ := Tonga.perform_calls Marshal r
  obtain ⟨ds, glen, -, gtr⟩ := TongaGoPgx.perform_calls_pgx Marshal r
  refine ⟨⟨cs, ?_, ?_, fun σ s => ⟨(htr σ s).1, (htr σ s).2, fun conn hc => ?_⟩⟩,
    ⟨ds, ?_, ?_, fun σ s => ⟨(gtr σ s).1, (gtr σ s).2, fun conn hc => ?_⟩⟩⟩
  · rw [hlen]; split <;> simp
  · rw [hlen]; cases r.marshalFails Marshal <;> simp
  · rw [(htr σ s).2, hc]; rfl
  · rw [glen]; split <;> simp
  · rw [glen]; cases r.marshalFails Marshal <;> simp
  · rw [(gtr σ s).2, hc]; rfl

end Tonga
